import Mathlib

set_option maxRecDepth 8192

/-!
Shallow embedding of `src/stunnel-plug.c` (a SLURM SPANK tunnel plugin).

Modelling conventions:
* C `uint32_t` values are modelled as `Nat` (each `Nat` stands for the value
  held by the C variable; `printf %u` of such a value agrees with `Nat`
  decimal printing).
* A `char*` that may be `NULL` is modelled as an `Option`.
* The SLURM node string `job_ptr->nodes` is modelled as
  `Option (List String)`: `none` is a `NULL` pointer, and a present compact
  node string is represented by its expansion into the ordered hostname list
  (the expansion is performed by the external `slurm_hostlist_*` scheduler
  API, which is a collaborator, not code of this file; the empty string
  expands to the empty list).
* `popen` is modelled as a function from the rendered command line to
  `Option String`: `none` models `popen` returning `NULL`, `some out` models
  a successfully spawned child whose entire standard output is `out`.
* Undefined behaviour actually reachable in the C code (a `NULL` pointer
  passed to `strlen` or `fscanf`) is modelled explicitly by `COutcome.undef`.
* `malloc` of the small command buffers is assumed to succeed (its size is a
  small constant plus the argured string lengths).
-/

/-- Compiled-in program path `STUNNEL_LIBEXEC_PROG` (src line 44). -/
def STUNNEL_LIBEXEC_PROG : String := "/usr/libexec/stunnel"

/-- Compiled-in default `DEFAULT_SSH_CMD` (src line 65). -/
def DEFAULT_SSH_CMD : String := "ssh"

/-- Compiled-in default `DEFAULT_SSH_ARGS` (src line 66). -/
def DEFAULT_SSH_ARGS : String := ""

/-- Compiled-in default `DEFAULT_HELPERTASK_ARGS` (src line 74). -/
def DEFAULT_HELPERTASK_ARGS : String := ""

/-- The three static configuration pointers `ssh_cmd`, `ssh_args`,
`helpertask_args` (src lines 54-56). `none` models the initial `NULL`. -/
structure ConfigState where
  ssh_cmd : Option String
  ssh_args : Option String
  helpertask_args : Option String
deriving DecidableEq

/-- The `while` loop in `__stunnel_init_config` that replaces every `|` of a
stored configuration value with a space (src lines 517-522 etc.). -/
def pipeToSpace (s : String) : String :=
  ⟨s.data.map (fun c => if c = '|' then ' ' else c)⟩

/-- Semantics of `strncmp(elt, key, strlen(key)) == 0` for an ASCII `key`
(src lines 515, 524, 533): the key is a prefix of the token.  For the ASCII
keys used here a bytewise prefix and a characterwise prefix agree. -/
def strncmpPrefix (key elt : String) : Bool :=
  key.data.isPrefixOf elt.data

/-- Semantics of `strdup(elt + strlen(key))` for an ASCII `key` that is a
prefix of `elt`: the remainder after the first `n` characters. -/
def dropChars (elt : String) (n : Nat) : String :=
  ⟨elt.data.drop n⟩

/-- One iteration of the `for` loop of `__stunnel_init_config`
(src lines 513-542): an `strncmp` prefix test against the three recognized
keys, storing the remainder of the token (with `|` replaced by spaces) into
the matching field.  Unrecognized tokens leave the state unchanged. -/
def processToken (st : ConfigState) (elt : String) : ConfigState :=
  if strncmpPrefix "ssh_cmd=" elt then
    { st with ssh_cmd := some (pipeToSpace (dropChars elt 8)) }
  else if strncmpPrefix "ssh_args=" elt then
    { st with ssh_args := some (pipeToSpace (dropChars elt 9)) }
  else if strncmpPrefix "helpertask_args=" elt then
    { st with helpertask_args := some (pipeToSpace (dropChars elt 16)) }
  else st

/-- `__stunnel_init_config` (src lines 502-542): fold the token loop over the
plugin argument vector, starting from the all-`NULL` initial state. -/
def __stunnel_init_config (av : List String) : ConfigState :=
  av.foldl processToken ⟨none, none, none⟩

/-- The ternary `(ssh_cmd == NULL) ? DEFAULT_SSH_CMD : ssh_cmd` used at every
use site of the configuration (src lines 459, 466). -/
def effSshCmd (st : ConfigState) : String :=
  st.ssh_cmd.getD DEFAULT_SSH_CMD

/-- The ternary `(ssh_args == NULL) ? DEFAULT_SSH_ARGS : ssh_args`
(src lines 460, 467). -/
def effSshArgs (st : ConfigState) : String :=
  st.ssh_args.getD DEFAULT_SSH_ARGS

/-- The ternary `(helpertask_args == NULL) ? DEFAULT_HELPERTASK_ARGS :
helpertask_args` (src lines 461-462, 468-469). -/
def effHelpertaskArgs (st : ConfigState) : String :=
  st.helpertask_args.getD DEFAULT_HELPERTASK_ARGS

/-- Error type of the tunnel option parser (spec section 4.2). -/
inductive OptionFail where
  | invalidFormat
deriving DecidableEq

/-- Split a character list on a separator character; agrees with
`String.splitOn` for a one-character separator (the empty input yields one
empty token). -/
def splitSep (sep : Char) : List Char → List (List Char)
  | [] => [[]]
  | c :: t =>
    if c = sep then [] :: splitSep sep t
    else
      match splitSep sep t with
      | [] => [[c]]
      | h :: r => (c :: h) :: r

/-- Decimal value of a digit string. -/
def charsToNat (l : List Char) : Nat :=
  l.foldl (fun n c => n * 10 + (c.toNat - 48)) 0

/-- Modelled from the spec: a port token of a `--tunnel` pair must be a
non-empty all-digit string whose value lies in 1-65535 (the body of
`_tunnel_opt_process` is absent from the source; only its declaration at
src line 84 and the option table entry at src lines 86-93 exist). -/
def numericInRange (t : List Char) : Bool :=
  !t.isEmpty && t.all Char.isDigit &&
    decide (1 ≤ charsToNat t) && decide (charsToNat t ≤ 65535)

/-- Modelled from the spec: a single `submit:exec` entry is valid when it
splits on `:` into exactly two tokens that both satisfy `numericInRange`. -/
def validPair (p : List Char) : Bool :=
  match splitSep ':' p with
  | [a, b] => numericInRange a && numericInRange b
  | _ => false

/-- Modelled from the spec: parse one `submit:exec` entry into a port pair,
failing on any malformed entry. -/
def parsePair (p : List Char) : Option (Nat × Nat) :=
  match splitSep ':' p with
  | [a, b] =>
    if numericInRange a && numericInRange b then
      some (charsToNat a, charsToNat b)
    else none
  | _ => none

/-- Modelled from the spec: parse every comma-separated entry, failing if any
single entry is malformed. -/
def parsePairs : List (List Char) → Option (List (Nat × Nat))
  | [] => some []
  | p :: ps =>
    match parsePair p, parsePairs ps with
    | some x, some xs => some (x :: xs)
    | _, _ => none

/-- Modelled from the spec: `parseTunnelOption` (spec section 4.2).  An
absent option value cannot be acted upon and is an error; otherwise the
value is split on `,` and every entry must be a valid port pair. -/
def parseTunnelOption (v : Option String) :
    Except OptionFail (List (Nat × Nat)) :=
  match v with
  | none => Except.error OptionFail.invalidFormat
  | some s =>
    match parsePairs (splitSep ',' s.data) with
    | some ps => Except.ok ps
    | none => Except.error OptionFail.invalidFormat

/-- Modelled from the spec: the option callback `_tunnel_opt_process`
(declared at src line 84, body missing from the source).  It returns the
callback status handed back to the option-parsing step (`0` success,
`-1` failure, on which the scheduler rejects the submission) together with
the stored tunnel specification, if any. -/
def _tunnel_opt_process (optarg : Option String) :
    Int × Option (List (Nat × Nat)) :=
  match parseTunnelOption optarg with
  | Except.ok ps => (0, some ps)
  | Except.error _ => (-1, none)

/-- Outcome of running a piece of C code: a returned value, or undefined
behaviour (here always a `NULL`-pointer dereference). -/
inductive COutcome (α : Type) where
  | ok (a : α) : COutcome α
  | undef : COutcome α
deriving DecidableEq

/-- C `isspace` for the default locale, as used by `fscanf` `%s`. -/
def cIsSpace (c : Char) : Bool :=
  c = ' ' || c = '\t' || c = '\n' || c = '\r' || c = '\x0b' || c = '\x0c'

/-- Semantics of `fscanf(f, "%255s", forward)` (src line 472) applied to the
child's whole standard output: skip leading whitespace, then read at most
255 non-whitespace characters; `none` when no character could be stored
(`fscanf` result differs from `1`). -/
def readToken (out : String) : Option String :=
  let rest := out.data.dropWhile cIsSpace
  if rest.isEmpty then none
  else some ⟨(rest.takeWhile (fun c => !cIsSpace c)).take 255⟩

/-- The command line rendered by `snprintf` in `_connect_node`
(src lines 454-469) from the pattern
`STUNNEL_LIBEXEC_PROG " -t %s -i %u.%u -cgw -s \"%s\" -o \"%s\" 2>/dev/null %s &"`.
The allocated buffer length (pattern length plus all argument lengths plus
128) always exceeds the formatted length, so `snprintf` never truncates.
The parenthesisation below only groups the concatenation; the rendered
string is the exact `snprintf` output. -/
def renderConnectCmd (node : String) (jobid stepid : Nat)
    (st : ConfigState) : String :=
  (STUNNEL_LIBEXEC_PROG ++ " -t " ++ node
    ++ (" -i " ++ toString jobid ++ "." ++ toString stepid))
    ++ (" -cgw -s \"" ++ effSshCmd st ++ "\" -o \"" ++ effSshArgs st
        ++ "\" 2>/dev/null " ++ effHelpertaskArgs st ++ " &")

/-- `_connect_node` (src lines 448-483).  A `NULL` node makes the very first
use `strlen(node)` undefined behaviour.  Otherwise the command is rendered
and handed to `popen`; the code does not test `popen`'s result, so a failed
spawn (`NULL` stream) makes `fscanf(NULL, ...)` undefined behaviour.  When a
token is read the function logs it and returns `0`; otherwise it keeps the
initial status `-1`.  The token itself is never parsed or returned. -/
def _connect_node (popen : String → Option String) (node : Option String)
    (jobid stepid : Nat) (st : ConfigState) : COutcome Int :=
  match node with
  | none => COutcome.undef
  | some nd =>
    match popen (renderConnectCmd nd jobid stepid st) with
    | none => COutcome.undef
    | some out =>
      COutcome.ok (if (readToken out).isSome then 0 else -1)

/-- Result of `slurm_hostlist_shift` on the host list created from the node
list (src lines 493-494): the first hostname, or `NULL` for an empty list. -/
def selectedHost (nodes : List String) : Option String :=
  nodes.head?

/-- `_stunnel_connect_nodes` (src lines 485-499): connect the shifted first
host and return `0` regardless of `_connect_node`'s status (the status is
discarded); undefined behaviour propagates. -/
def _stunnel_connect_nodes (popen : String → Option String)
    (nodes : List String) (jobid stepid : Nat) (st : ConfigState) :
    COutcome Int :=
  match _connect_node popen (selectedHost nodes) jobid stepid st with
  | COutcome.undef => COutcome.undef
  | COutcome.ok _ => COutcome.ok 0

/-- The fields of the `job_info_msg_t` result of `slurm_load_job` that the
plugin reads: `record_count` and the first record's `nodes` pointer. -/
structure JobInfoMsg where
  record_count : Nat
  nodes : Option (List String)
deriving DecidableEq

/-- `slurm_spank_local_user_init` (src lines 113-168).  `jobItem`/`stepItem`
model `spank_get_item` results (`none` is an `ESPANK` failure, status `-1`);
`loadJob` models `slurm_load_job` (`none` is a non-zero status, mapped to
`-3`); a record count different from `1` gives `-4`; a `NULL` `nodes`
pointer gives `-5`; otherwise the status is that of
`_stunnel_connect_nodes`. -/
def slurm_spank_local_user_init (jobItem stepItem : Option Nat)
    (loadJob : Option JobInfoMsg) (popen : String → Option String)
    (st : ConfigState) : COutcome Int :=
  match jobItem with
  | none => COutcome.ok (-1)
  | some jobid =>
    match stepItem with
    | none => COutcome.ok (-1)
    | some stepid =>
      match loadJob with
      | none => COutcome.ok (-3)
      | some msg =>
        if msg.record_count ≠ 1 then COutcome.ok (-4)
        else
          match msg.nodes with
          | none => COutcome.ok (-5)
          | some ns => _stunnel_connect_nodes popen ns jobid stepid st

/-- The teardown command rendered by `snprintf` in `slurm_spank_exit`
(src lines 381, 398-402) from the pattern `X11_LIBEXEC_PROG " -i %u.%u -r
2>/dev/null"`.  The macro `X11_LIBEXEC_PROG` is not defined in the source
file, so the tool path is a parameter.  The buffer (pattern length plus 128)
always exceeds the formatted length, so the `snprintf >= length` guard never
fires. -/
def teardownCmd (tool : String) (jobid stepid : Nat) : String :=
  tool ++ (" -i " ++ toString jobid ++ "." ++ toString stepid ++ " -r")
    ++ " 2>/dev/null"

/-- `slurm_spank_exit` (src lines 375-418).  In local context
(`spank_remote` false) it returns `0` immediately; a failed
`spank_get_item` returns `-1`; otherwise it `popen`s exactly one teardown
command, reads nothing from it (`pclose` follows immediately, the output is
ignored), and returns `0`.  The result pairs the returned status with the
list of commands spawned. -/
def slurm_spank_exit (tool : String) (remote : Bool)
    (jobItem stepItem : Option Nat) : Int × List String :=
  if !remote then (0, [])
  else
    match jobItem with
    | none => (-1, [])
    | some j =>
      match stepItem with
      | none => (-1, [])
      | some s => (0, [teardownCmd tool j s])

/-- A marker string occurs verbatim (as a contiguous character run) inside
another string. -/
def hasMarker (s marker : String) : Prop :=
  ∃ pre suf : List Char, s.data = pre ++ marker.data ++ suf

/-- Boolean contiguous-sublist test on character lists. -/
def listHasSub (needle : List Char) : List Char → Bool
  | [] => needle.isEmpty
  | c :: t => needle.isPrefixOf (c :: t) || listHasSub needle t

theorem string_eq_of_data {a b : String} (h : a.data = b.data) : a = b := by
  cases a
  cases b
  cases h
  rfl

theorem string_data_append (a b : String) :
    (a ++ b).data = a.data ++ b.data := by
  cases a
  cases b
  rfl

theorem parsePair_none_of_invalid (p : List Char) (h : validPair p = false) :
    parsePair p = none := by
  unfold validPair at h
  unfold parsePair
  rcases hs : splitSep ':' p with _ | ⟨a, _ | ⟨b, _ | ⟨c, r⟩⟩⟩ <;>
    rw [hs] at h <;> simp_all

theorem parsePairs_none_of_mem (l : List (List Char)) (p : List Char)
    (hp : p ∈ l) (hb : parsePair p = none) : parsePairs l = none := by
  induction l with
  | nil => cases hp
  | cons a t ih =>
    cases hp with
    | head => simp [parsePairs, hb]
    | tail _ hp => cases ha : parsePair a <;> simp [parsePairs, ha, ih hp]

theorem keys_exclusive_args (a : String)
    (h : strncmpPrefix "ssh_cmd=" a = true) :
    strncmpPrefix "ssh_args=" a = false := by
  cases a with
  | mk l =>
    unfold strncmpPrefix at h ⊢
    rcases l with _ | ⟨c1, _ | ⟨c2, _ | ⟨c3, _ | ⟨c4, _ | ⟨c5, r⟩⟩⟩⟩⟩ <;>
      simp only [List.isPrefixOf, List.isPrefixOf_cons₂, Bool.and_eq_true,
        Bool.and_false, Bool.false_eq_true, beq_iff_eq] at h
    obtain ⟨rfl, rfl, rfl, rfl, rfl, -⟩ := h
    rfl

theorem keys_exclusive_ht_cmd (a : String)
    (h : strncmpPrefix "ssh_cmd=" a = true) :
    strncmpPrefix "helpertask_args=" a = false := by
  cases a with
  | mk l =>
    unfold strncmpPrefix at h ⊢
    rcases l with _ | ⟨c1, r⟩ <;>
      simp only [List.isPrefixOf, List.isPrefixOf_cons₂, Bool.and_eq_true,
        Bool.and_false, Bool.false_eq_true, beq_iff_eq] at h
    obtain ⟨rfl, -⟩ := h
    rfl

theorem keys_exclusive_ht_args (a : String)
    (h : strncmpPrefix "ssh_args=" a = true) :
    strncmpPrefix "helpertask_args=" a = false := by
  cases a with
  | mk l =>
    unfold strncmpPrefix at h ⊢
    rcases l with _ | ⟨c1, r⟩ <;>
      simp only [List.isPrefixOf, List.isPrefixOf_cons₂, Bool.and_eq_true,
        Bool.and_false, Bool.false_eq_true, beq_iff_eq] at h
    obtain ⟨rfl, -⟩ := h
    rfl

theorem processToken_ssh_cmd (st : ConfigState) (a : String) :
    (processToken st a).ssh_cmd =
      if strncmpPrefix "ssh_cmd=" a then some (pipeToSpace (dropChars a 8))
      else st.ssh_cmd := by
  unfold processToken
  split_ifs <;> rfl

theorem processToken_ssh_args (st : ConfigState) (a : String) :
    (processToken st a).ssh_args =
      if strncmpPrefix "ssh_args=" a then some (pipeToSpace (dropChars a 9))
      else st.ssh_args := by
  unfold processToken
  by_cases h1 : strncmpPrefix "ssh_cmd=" a = true
  · simp [h1, keys_exclusive_args a h1]
  · by_cases h2 : strncmpPrefix "ssh_args=" a = true
    · simp [h1, h2]
    · by_cases h3 : strncmpPrefix "helpertask_args=" a = true <;> simp [h1, h2, h3]

theorem processToken_ht (st : ConfigState) (a : String) :
    (processToken st a).helpertask_args =
      if strncmpPrefix "helpertask_args=" a then some (pipeToSpace (dropChars a 16))
      else st.helpertask_args := by
  unfold processToken
  by_cases h1 : strncmpPrefix "ssh_cmd=" a = true
  · simp [h1, keys_exclusive_ht_cmd a h1]
  · by_cases h2 : strncmpPrefix "ssh_args=" a = true
    · simp [h1, h2, keys_exclusive_ht_args a h2]
    · by_cases h3 : strncmpPrefix "helpertask_args=" a = true <;> simp [h1, h2, h3]

theorem foldl_ssh_cmd_none (av : List String) (st : ConfigState) :
    (av.foldl processToken st).ssh_cmd = none ↔
      st.ssh_cmd = none ∧ ∀ t ∈ av, strncmpPrefix "ssh_cmd=" t = false := by
  induction av generalizing st with
  | nil => simp
  | cons a l ih =>
    rw [List.foldl_cons, ih, processToken_ssh_cmd]
    cases hb : strncmpPrefix "ssh_cmd=" a <;>
      simp [hb, List.forall_mem_cons, and_assoc]

theorem foldl_ssh_args_none (av : List String) (st : ConfigState) :
    (av.foldl processToken st).ssh_args = none ↔
      st.ssh_args = none ∧ ∀ t ∈ av, strncmpPrefix "ssh_args=" t = false := by
  induction av generalizing st with
  | nil => simp
  | cons a l ih =>
    rw [List.foldl_cons, ih, processToken_ssh_args]
    cases hb : strncmpPrefix "ssh_args=" a <;>
      simp [hb, List.forall_mem_cons, and_assoc]

theorem foldl_ht_none (av : List String) (st : ConfigState) :
    (av.foldl processToken st).helpertask_args = none ↔
      st.helpertask_args = none ∧
        ∀ t ∈ av, strncmpPrefix "helpertask_args=" t = false := by
  induction av generalizing st with
  | nil => simp
  | cons a l ih =>
    rw [List.foldl_cons, ih, processToken_ht]
    cases hb : strncmpPrefix "helpertask_args=" a <;>
      simp [hb, List.forall_mem_cons, and_assoc]

/-- C10: for each of the three configuration fields the stored override is
absent (so the use sites substitute the compiled-in default) exactly when no
configuration token carrying the corresponding key prefix appeared, and a
recognized key with an empty value (the token `ssh_cmd=` exactly) stores the
empty string, overriding the default `ssh` rather than leaving it in
effect. -/
theorem initConfig_override_iff_token (av : List String) :
    ((__stunnel_init_config av).ssh_cmd = none ↔
      ∀ t ∈ av, strncmpPrefix "ssh_cmd=" t = false) ∧
    ((__stunnel_init_config av).ssh_args = none ↔
      ∀ t ∈ av, strncmpPrefix "ssh_args=" t = false) ∧
    ((__stunnel_init_config av).helpertask_args = none ↔
      ∀ t ∈ av, strncmpPrefix "helpertask_args=" t = false) ∧
    effSshCmd (__stunnel_init_config ["ssh_cmd="]) = "" ∧
    DEFAULT_SSH_CMD ≠ "" ∧
    (∀ st : ConfigState, st.ssh_cmd = none → effSshCmd st = DEFAULT_SSH_CMD) ∧
    (∀ st : ConfigState, ∀ v, st.ssh_cmd = some v → effSshCmd st = v) := by
  refine ⟨?_, ?_, ?_, by decide, by decide, ?_, ?_⟩
  · rw [__stunnel_init_config, foldl_ssh_cmd_none]
    simp
  · rw [__stunnel_init_config, foldl_ssh_args_none]
    simp
  · rw [__stunnel_init_config, foldl_ht_none]
    simp
  · intro st h
    simp [effSshCmd, h]
  · intro st v h
    simp [effSshCmd, h]

/-- C1: any comma-separated entry of the `--tunnel` value that does not split
on `:` into exactly two non-empty numeric tokens in range 1-65535 makes the
modelled option parser fail with `invalidFormat`, and the option callback
report failure (`-1`) while storing no tunnel specification. -/
theorem tunnelOption_invalid_rejected (s : String) (pair : List Char)
    (hmem : pair ∈ splitSep ',' s.data) (hbad : validPair pair = false) :
    parseTunnelOption (some s) = Except.error OptionFail.invalidFormat ∧
    _tunnel_opt_process (some s) = (-1, none) := by
  have hp := parsePair_none_of_invalid pair hbad
  have hl := parsePairs_none_of_mem _ _ hmem hp
  constructor
  · simp [parseTunnelOption, hl]
  · simp [_tunnel_opt_process, parseTunnelOption, hl]

/-- C1 witness: the concrete value `8080:` (empty execution-port token) is
rejected. -/
theorem tunnelOption_invalid_rejected_witness :
    parseTunnelOption (some "8080:") = Except.error OptionFail.invalidFormat ∧
    _tunnel_opt_process (some "8080:") = (-1, none) :=
  tunnelOption_invalid_rejected "8080:" ("8080:".data) (by decide) (by decide)

/-- C2: evaluated at the spec's end-to-end scenario (node `nodeA`, job 100,
step 0, tunnel option `8080:80`, default configuration) the rendered launch
command embeds the node, the job id and step id and the configuration
values, but contains no forwarding directive for the pair `(8080,80)` - in
fact `renderConnectCmd`, like `_connect_node` in the source, takes no port
argument at all, so the `TunnelSpec` can never reach the command line. -/
theorem connectCmd_omits_forwarding :
    renderConnectCmd "nodeA" 100 0 ⟨none, none, none⟩ =
      "/usr/libexec/stunnel -t nodeA -i 100.0 -cgw -s \"ssh\" -o \"\" 2>/dev/null  &" ∧
    listHasSub ("8080".data)
      ((renderConnectCmd "nodeA" 100 0 ⟨none, none, none⟩).data) = false ∧
    listHasSub ("80".data)
      ((renderConnectCmd "nodeA" 100 0 ⟨none, none, none⟩).data) = false ∧
    listHasSub ("-L".data)
      ((renderConnectCmd "nodeA" 100 0 ⟨none, none, none⟩).data) = false :=
  ⟨by decide, by decide, by decide, by decide⟩

/-- C3 counterexample: a job-context resolution failure (`slurm_load_job`
non-zero) makes the local-setup hook return `-3`, a failing status, not
success `0` as the claim states. -/
theorem localUserInit_resolution_failure_not_success :
    slurm_spank_local_user_init (some 100) (some 0) none (fun _ => none)
        ⟨none, none, none⟩ = COutcome.ok (-3) ∧
    COutcome.ok (-3 : Int) ≠ COutcome.ok (0 : Int) :=
  ⟨rfl, by decide⟩

/-- C3 amended: a launch failure in which the spawned child produces no
parseable token is swallowed and the hook still returns success `0`, but
job-context resolution failures (load failure `-3`, ambiguous record count
`-4`, null node list `-5`) make the hook return a non-zero failing
status. -/
theorem localUserInit_status_policy (j s : Nat) (st : ConfigState)
    (popen : String → Option String) (out hd : String) (tl : List String)
    (rc : Nat) (nd : Option (List String))
    (hout : readToken out = none) (hrc : rc ≠ 1) :
    slurm_spank_local_user_init (some j) (some s) (some ⟨1, some (hd :: tl)⟩)
        (fun _ => some out) st = COutcome.ok 0 ∧
    slurm_spank_local_user_init (some j) (some s) none popen st =
      COutcome.ok (-3) ∧
    slurm_spank_local_user_init (some j) (some s) (some ⟨rc, nd⟩) popen st =
      COutcome.ok (-4) ∧
    slurm_spank_local_user_init (some j) (some s) (some ⟨1, none⟩) popen st =
      COutcome.ok (-5) := by
  refine ⟨?_, rfl, ?_, ?_⟩
  · simp [slurm_spank_local_user_init, _stunnel_connect_nodes, _connect_node,
      selectedHost, hout]
  · simp [slurm_spank_local_user_init, hrc]
  · simp [slurm_spank_local_user_init]

/-- C3 witness. -/
theorem localUserInit_status_policy_witness :
    slurm_spank_local_user_init (some 100) (some 0) (some ⟨1, some ["nodeA"]⟩)
        (fun _ => some "") ⟨none, none, none⟩ = COutcome.ok 0 ∧
    slurm_spank_local_user_init (some 100) (some 0) none (fun _ => none)
        ⟨none, none, none⟩ = COutcome.ok (-3) ∧
    slurm_spank_local_user_init (some 100) (some 0) (some ⟨0, none⟩)
        (fun _ => none) ⟨none, none, none⟩ = COutcome.ok (-4) ∧
    slurm_spank_local_user_init (some 100) (some 0) (some ⟨1, none⟩)
        (fun _ => none) ⟨none, none, none⟩ = COutcome.ok (-5) :=
  localUserInit_status_policy 100 0 ⟨none, none, none⟩ (fun _ => none) ""
    "nodeA" [] 0 none (by decide) (by decide)

/-- C4 counterexample: the child prints `notaport`; the token is not a
parseable port number, yet `_connect_node` reports success `0` and returns
no port value, where the claim requires the token to be parsed as the
negotiated port (and `NoPortReported` when nothing parseable arrives). -/
theorem connectNode_success_without_port_parse :
    _connect_node (fun _ => some "notaport\n") (some "nodeA") 100 0
        ⟨none, none, none⟩ = COutcome.ok 0 ∧
    readToken "notaport\n" = some "notaport" ∧
    numericInRange ("notaport".data) = false :=
  ⟨by decide, by decide, by decide⟩

/-- C4 amended: the launcher reads one whitespace-delimited token of at most
255 bytes from the child's output; if a token is read (numeric or not) the
launch returns status `0` without parsing the token or returning it, and if
no token is read before the output ends it returns the failure status `-1`
(there is no timeout in the code). -/
theorem connectNode_token_read_behavior (out tok out2 node : String)
    (j s : Nat) (st : ConfigState)
    (h : readToken out = some tok) (h2 : readToken out2 = none) :
    tok.length ≤ 255 ∧
    _connect_node (fun _ => some out) (some node) j s st = COutcome.ok 0 ∧
    _connect_node (fun _ => some out2) (some node) j s st = COutcome.ok (-1) := by
  refine ⟨?_, ?_, ?_⟩
  · simp only [readToken] at h
    split at h
    · exact absurd h (by simp)
    · injection h with h
      rw [← h]
      exact List.length_take_le 255 _
  · simp [_connect_node, h]
  · simp [_connect_node, h2]

/-- C4 witness. -/
theorem connectNode_token_read_behavior_witness :
    ("54321" : String).length ≤ 255 ∧
    _connect_node (fun _ => some "54321\n") (some "nodeA") 100 0
        ⟨none, none, none⟩ = COutcome.ok 0 ∧
    _connect_node (fun _ => some "") (some "nodeA") 100 0
        ⟨none, none, none⟩ = COutcome.ok (-1) :=
  connectNode_token_read_behavior "54321\n" "54321" "" "nodeA" 100 0
    ⟨none, none, none⟩ (by decide) (by decide)

/-- C5 counterexample: no escaping is applied, so a quote character inside a
substituted configuration value changes the field structure of the rendered
command: two distinct configurations render the identical command line, in
which the `ssh_cmd` field value `c" -o "x` has forged an extra `-o` field. -/
theorem renderCmd_field_collision_instance :
    renderConnectCmd "nodeA" 100 0 ⟨some "c\" -o \"x", some "y", none⟩ =
      renderConnectCmd "nodeA" 100 0 ⟨some "c", some "x\" -o \"y", none⟩ ∧
    renderConnectCmd "nodeA" 100 0 ⟨some "c\" -o \"x", some "y", none⟩ =
      "/usr/libexec/stunnel -t nodeA -i 100.0 -cgw -s \"c\" -o \"x\" -o \"y\" 2>/dev/null  &" ∧
    (ConfigState.mk (some "c\" -o \"x") (some "y") none) ≠
      ConfigState.mk (some "c") (some "x\" -o \"y") none :=
  ⟨by decide, by decide, by decide⟩

/-- C5 amended: the renderer interpolates substituted values verbatim with
no shell escaping or quoting, so substituted fields can alter the structure
of the command: for every node, job id and step id, the two distinct
configurations below render the identical command line. -/
theorem renderCmd_no_escaping_collision (node : String) (j s : Nat) :
    renderConnectCmd node j s ⟨some "c\" -o \"x", some "y", none⟩ =
      renderConnectCmd node j s ⟨some "c", some "x\" -o \"y", none⟩ ∧
    (ConfigState.mk (some "c\" -o \"x") (some "y") none) ≠
      ConfigState.mk (some "c") (some "x\" -o \"y") none := by
  refine ⟨?_, by decide⟩
  unfold renderConnectCmd
  exact congrArg
    (fun x => STUNNEL_LIBEXEC_PROG ++ " -t " ++ node
      ++ (" -i " ++ toString j ++ "." ++ toString s) ++ x) (by decide)

/-- C6 counterexample: an empty-but-present node list (an empty node string,
whose host-list expansion is empty) passes the `nodes == NULL` check, so the
hook does not fail with the no-allocation status `-5`; instead the launch
phase dereferences the null result of `slurm_hostlist_shift` (undefined
behaviour). -/
theorem localUserInit_empty_nodelist_not_noalloc :
    slurm_spank_local_user_init (some 100) (some 0) (some ⟨1, some []⟩)
        (fun _ => some "54321") ⟨none, none, none⟩ = COutcome.undef ∧
    (COutcome.undef : COutcome Int) ≠ COutcome.ok (-5) ∧
    (COutcome.undef : COutcome Int) ≠ COutcome.ok 0 :=
  ⟨by decide, by decide, by decide⟩

/-- C6 amended: the resolver step fails with `-4` (the `NotFound` analogue)
whenever the scheduler returns a record count other than one (zero or
several), and with `-5` (the `NoAllocation` analogue) when the record's node
list is absent (`NULL`); an empty-but-present node list is not rejected. -/
theorem localUserInit_record_and_null_checks (j s rc : Nat)
    (nd : Option (List String)) (st : ConfigState)
    (popen : String → Option String) (h : rc ≠ 1) :
    slurm_spank_local_user_init (some j) (some s) (some ⟨rc, nd⟩) popen st =
      COutcome.ok (-4) ∧
    slurm_spank_local_user_init (some j) (some s) (some ⟨1, none⟩) popen st =
      COutcome.ok (-5) := by
  constructor
  · simp [slurm_spank_local_user_init, h]
  · simp [slurm_spank_local_user_init]

/-- C6 witness. -/
theorem localUserInit_record_and_null_checks_witness :
    slurm_spank_local_user_init (some 100) (some 0) (some ⟨0, some ["nodeA"]⟩)
        (fun _ => none) ⟨none, none, none⟩ = COutcome.ok (-4) ∧
    slurm_spank_local_user_init (some 100) (some 0) (some ⟨1, none⟩)
        (fun _ => none) ⟨none, none, none⟩ = COutcome.ok (-5) :=
  localUserInit_record_and_null_checks 100 0 0 (some ["nodeA"])
    ⟨none, none, none⟩ (fun _ => none) (by decide)

/-- C7: when `popen` fails (returns `NULL`, the spawn failure case) the code
does not return any error status: it passes the null stream straight to
`fscanf`, which is undefined behaviour, and in particular no `ok` status of
any kind is produced. -/
theorem connectNode_spawn_failure_undef :
    _connect_node (fun _ => none) (some "nodeA") 100 0 ⟨none, none, none⟩ =
      COutcome.undef ∧
    ∀ e : Int, (COutcome.undef : COutcome Int) ≠ COutcome.ok e := by
  refine ⟨rfl, ?_⟩
  intro e h
  exact COutcome.noConfusion h

/-- C8: on a non-empty allocation the shifted host is the first element, but
on the empty allocation the code does not fail with an `EmptyAllocation`
error: the null shifted host flows into `_connect_node`, whose `strlen` on
it is undefined behaviour. -/
theorem connectNodes_empty_allocation_undef :
    _stunnel_connect_nodes (fun _ => some "54321") [] 100 0
        ⟨none, none, none⟩ = COutcome.undef ∧
    selectedHost [] = none ∧
    (∀ hd : String, ∀ tl : List String, selectedHost (hd :: tl) = some hd) :=
  ⟨rfl, rfl, fun _ _ => rfl⟩

/-- C9: in a remote context the exit hook spawns exactly one teardown
command of the form `tool -i jobid.stepid -r` (output redirected and
ignored), carrying the same `-i jobid.stepid` pair rendering that the launch
command of the same job and step carries; in a non-remote context it spawns
none. -/
theorem spankExit_teardown_behavior (tool node : String) (j s : Nat)
    (st : ConfigState) (ji si : Option Nat) :
    slurm_spank_exit tool true (some j) (some s) =
      (0, [teardownCmd tool j s]) ∧
    (slurm_spank_exit tool true (some j) (some s)).2.length = 1 ∧
    hasMarker (teardownCmd tool j s)
      (" -i " ++ toString j ++ "." ++ toString s ++ " -r") ∧
    hasMarker (renderConnectCmd node j s st)
      (" -i " ++ toString j ++ "." ++ toString s) ∧
    slurm_spank_exit tool false ji si = (0, []) := by
  refine ⟨rfl, rfl, ?_, ?_, rfl⟩
  · exact ⟨tool.data, " 2>/dev/null".data,
      by simp [teardownCmd, string_data_append, List.append_assoc]⟩
  · exact ⟨(STUNNEL_LIBEXEC_PROG ++ " -t " ++ node).data,
      (" -cgw -s \"" ++ effSshCmd st ++ "\" -o \"" ++ effSshArgs st
        ++ "\" 2>/dev/null " ++ effHelpertaskArgs st ++ " &").data,
      by simp [renderConnectCmd, string_data_append, List.append_assoc]⟩
